import Mathlib

/-!
Verification of the Guarded Execution Core of the Ultraflashloanbot
repository, a shallow embedding of `src/utils/SafetyWrapper.js`.

The JavaScript module keeps one mutable configuration object
`SAFETY_CONFIG`; every exported function reads and mutates it and signals
rejection by throwing an `Error`.  The embedding passes the configuration
explicitly: a function that may throw returns the post-state together with
`Option String` (the thrown message, `none` when no throw) or, for the
transaction wrapper, an `Except` value distinguishing the operation's own
error from an emergency-stop error.  JavaScript truthiness of the optional
numeric fields of `txData` (`0`, `undefined` are falsy) is modelled by
`jsTruthy`.
-/

/-- `SAFETY_CONFIG.circuitBreaker` in `SafetyWrapper.js`. -/
structure CircuitBreakerState where
  consecutiveFailures : Nat
  maxFailures : Nat
  isActive : Bool
deriving DecidableEq, Repr

/-- `SAFETY_CONFIG.testMode` in `SafetyWrapper.js`. -/
structure TestModeState where
  enabled : Bool
  maxTestTrades : Nat
  completedTrades : Nat
  maxTestAmount : Nat
deriving DecidableEq, Repr

/-- The shape of the module-level `SAFETY_CONFIG` object. -/
structure SafetyConfig where
  maxSlippageTolerance : Nat
  maxGasPrice : Nat
  maxTradeSize : Nat
  authorizedFlashloanProviders : List String
  circuitBreaker : CircuitBreakerState
  testMode : TestModeState
deriving DecidableEq, Repr

/-- The initial value of `SAFETY_CONFIG` (module top of `SafetyWrapper.js`). -/
def SAFETY_CONFIG : SafetyConfig :=
  { maxSlippageTolerance := 50
    maxGasPrice := 1000
    maxTradeSize := 10000
    authorizedFlashloanProviders :=
      [ "0x7d2768dE32b0b80b7a3454c06BdAc94A69DDc7A9"
      , "0x89d065572136814230A55DdEeDDEC9DF34EB0B76"
      , "0x470fBfb1e62D0c1c0c5b6d3b5e5e5e5e5e5e5e5"
      , "0x1F98431c8aD98523631AE4a59f267346ea31F984"
      , "0xcA143Ce32Fe78f1f7019d7d551a6402fC5350c73" ]
    circuitBreaker := { consecutiveFailures := 0, maxFailures := 3, isActive := false }
    testMode := { enabled := true, maxTestTrades := 5, completedTrades := 0, maxTestAmount := 500 } }

/-- A transaction intent (`txData`).  All fields are optional; the validator
checks only what is provided (and, per JavaScript truthiness, skips a numeric
field whose value is `0`). -/
structure TxData where
  gasPrice : Option Nat
  amount : Option Nat
  counterparty : Option String
deriving DecidableEq, Repr

/-- JavaScript truthiness of an optional number: `undefined` and `0` are falsy. -/
def jsTruthy : Option Nat → Bool
  | none => false
  | some n => n != 0

/-- The numeric value of an optional field (only consulted when truthy). -/
def jsNum : Option Nat → Nat
  | none => 0
  | some n => n

/-- `emergencyStop(reason)`: sets `circuitBreaker.isActive = true` and throws
`EMERGENCY STOP: reason`.  Returns the post-state and the thrown message. -/
def emergencyStop (reason : String) (c : SafetyConfig) : SafetyConfig × String :=
  ( { c with circuitBreaker := { c.circuitBreaker with isActive := true } }
  , "EMERGENCY STOP: " ++ reason )

/-- `checkCircuitBreaker()`: throws via `emergencyStop` when the consecutive
failure count has reached `maxFailures`, otherwise when `isActive` is already
set; returns the post-state and the thrown message, if any. -/
def checkCircuitBreaker (c : SafetyConfig) : SafetyConfig × Option String :=
  if c.circuitBreaker.consecutiveFailures ≥ c.circuitBreaker.maxFailures then
    let p := emergencyStop "Too many consecutive failures" c
    (p.1, some p.2)
  else if c.circuitBreaker.isActive = true then
    let p := emergencyStop "Circuit breaker manually activated" c
    (p.1, some p.2)
  else (c, none)

/-- `validateFlashloanProvider(providerAddress)`: emergency stop when the
address is not in the authorized list (exact string membership). -/
def validateFlashloanProvider (providerAddress : String) (c : SafetyConfig) :
    SafetyConfig × Option String :=
  if c.authorizedFlashloanProviders.contains providerAddress = false then
    let p := emergencyStop ("Unauthorized flashloan provider: " ++ providerAddress) c
    (p.1, some p.2)
  else (c, none)

/-- `validateTransaction(txData)`: gas-price check, then trade-size check
(ceiling `testMode.maxTestAmount` when test mode is enabled, else
`maxTradeSize`), then the test-mode trade-count limit.  Each violation throws
via `emergencyStop`, so a later check runs only when every earlier check
passed.  The `counterparty` field of the intent is never read. -/
def validateTransaction (tx : TxData) (c : SafetyConfig) : SafetyConfig × Option String :=
  if jsTruthy tx.gasPrice = true ∧ jsNum tx.gasPrice > c.maxGasPrice then
    let p := emergencyStop
      ("Gas price too high: " ++ toString (jsNum tx.gasPrice) ++ " gwei > "
        ++ toString c.maxGasPrice ++ " gwei") c
    (p.1, some p.2)
  else
    let maxAllowed := if c.testMode.enabled = true then c.testMode.maxTestAmount else c.maxTradeSize
    if jsTruthy tx.amount = true ∧ jsNum tx.amount > maxAllowed then
      let p := emergencyStop
        ("Trade size too large: $" ++ toString (jsNum tx.amount) ++ " > $"
          ++ toString maxAllowed) c
      (p.1, some p.2)
    else if c.testMode.enabled = true ∧ c.testMode.completedTrades ≥ c.testMode.maxTestTrades then
      let p := emergencyStop "Test mode limit reached - manual review required" c
      (p.1, some p.2)
    else (c, none)

/-- The error surfaced by `monitoredTransaction`: either the emergency-stop
error thrown by `checkCircuitBreaker`, or the operation's own error
re-thrown unchanged. -/
inductive TxOutcomeError (ε : Type) where
  | emergencyStop (msg : String)
  | original (e : ε)
deriving DecidableEq, Repr

/-- `monitoredTransaction(txPromise)`: awaits the already-started operation
(there is no circuit-breaker check before the await).  On success it resets
`consecutiveFailures` to 0 and, in test mode, increments `completedTrades`.
On failure it increments `consecutiveFailures`, runs `checkCircuitBreaker`
(whose emergency-stop throw, when it fires, replaces the operation's error),
and otherwise re-throws the operation's error. -/
def monitoredTransaction {ε α : Type} (outcome : Except ε α) (c : SafetyConfig) :
    SafetyConfig × Except (TxOutcomeError ε) α :=
  match outcome with
  | Except.ok r =>
      let c1 := { c with circuitBreaker := { c.circuitBreaker with consecutiveFailures := 0 } }
      let c2 :=
        if c1.testMode.enabled = true then
          { c1 with testMode := { c1.testMode with completedTrades := c1.testMode.completedTrades + 1 } }
        else c1
      (c2, Except.ok r)
  | Except.error e =>
      let c1 := { c with circuitBreaker :=
        { c.circuitBreaker with consecutiveFailures := c.circuitBreaker.consecutiveFailures + 1 } }
      match checkCircuitBreaker c1 with
      | (c2, some msg) => (c2, Except.error (TxOutcomeError.emergencyStop msg))
      | (c2, none) => (c2, Except.error (TxOutcomeError.original e))

/-- The `limits` sub-object of `getSafetyStatus()`: a freshly constructed
object of plain numbers, so its values are fixed at snapshot time.
`maxSlippage` is `maxSlippageTolerance / 100`, a JavaScript (exact here)
division. -/
structure LimitsView where
  maxSlippage : ℚ
  maxGasPrice : Nat
  maxTradeSize : Nat
deriving DecidableEq, Repr

/-- The handle returned by `getSafetyStatus()`.  The JavaScript return value
is an object whose `circuitBreaker`, `testMode` and `authorizedProviders`
fields are references to the live sub-objects of `SAFETY_CONFIG`; only the
`limits` field is a fresh object.  The handle therefore stores just the copied
part, and reading the live fields goes through the current state (see
`readSnapshot`). -/
structure SnapshotHandle where
  limits : LimitsView
deriving DecidableEq, Repr

/-- What a holder of the snapshot object observes when reading its fields. -/
structure SnapshotView where
  circuitBreaker : CircuitBreakerState
  testMode : TestModeState
  limits : LimitsView
  authorizedProviders : List String
deriving DecidableEq, Repr

/-- `getSafetyStatus()`: builds the snapshot object.  Only `limits` is copied
out of the configuration at call time. -/
def getSafetyStatus (c : SafetyConfig) : SnapshotHandle :=
  { limits :=
      { maxSlippage := (c.maxSlippageTolerance : ℚ) / 100
        maxGasPrice := c.maxGasPrice
        maxTradeSize := if c.testMode.enabled = true then c.testMode.maxTestAmount else c.maxTradeSize } }

/-- Reading the fields of a previously returned snapshot object while the
configuration is now `current`: `circuitBreaker`, `testMode` and
`authorizedProviders` alias the live state, `limits` comes from the handle. -/
def readSnapshot (h : SnapshotHandle) (current : SafetyConfig) : SnapshotView :=
  { circuitBreaker := current.circuitBreaker
    testMode := current.testMode
    limits := h.limits
    authorizedProviders := current.authorizedFlashloanProviders }

/-- `activateCircuitBreaker()`. -/
def activateCircuitBreaker (c : SafetyConfig) : SafetyConfig :=
  { c with circuitBreaker := { c.circuitBreaker with isActive := true } }

/-- `deactivateCircuitBreaker()`: clears `isActive` and resets
`consecutiveFailures` in one step. -/
def deactivateCircuitBreaker (c : SafetyConfig) : SafetyConfig :=
  { c with circuitBreaker :=
      { c.circuitBreaker with isActive := false, consecutiveFailures := 0 } }

/-- `disableTestMode()`. -/
def disableTestMode (c : SafetyConfig) : SafetyConfig :=
  { c with testMode := { c.testMode with enabled := false } }

/-- Every state-touching operation the module exports, as one syntactic
class, used to state frame properties over the whole interface. -/
inductive CoreOp (ε α : Type) where
  | emergencyStopOp (reason : String)
  | checkCircuitBreakerOp
  | validateFlashloanProviderOp (addr : String)
  | validateTransactionOp (tx : TxData)
  | monitoredTransactionOp (outcome : Except ε α)
  | getSafetyStatusOp
  | activateCircuitBreakerOp
  | deactivateCircuitBreakerOp
  | disableTestModeOp

/-- The state transition performed by each exported operation
(`getSafetyStatus` reads only). -/
def applyCoreOp {ε α : Type} (op : CoreOp ε α) (c : SafetyConfig) : SafetyConfig :=
  match op with
  | CoreOp.emergencyStopOp r => (emergencyStop r c).1
  | CoreOp.checkCircuitBreakerOp => (checkCircuitBreaker c).1
  | CoreOp.validateFlashloanProviderOp a => (validateFlashloanProvider a c).1
  | CoreOp.validateTransactionOp tx => (validateTransaction tx c).1
  | CoreOp.monitoredTransactionOp o => (monitoredTransaction o c).1
  | CoreOp.getSafetyStatusOp => c
  | CoreOp.activateCircuitBreakerOp => activateCircuitBreaker c
  | CoreOp.deactivateCircuitBreakerOp => deactivateCircuitBreaker c
  | CoreOp.disableTestModeOp => disableTestMode c

/-- `SAFETY_CONFIG` with the breaker manually armed. -/
def trippedConfig : SafetyConfig := activateCircuitBreaker SAFETY_CONFIG

/-- Unfolded form of `checkCircuitBreaker`. -/
theorem checkCircuitBreaker_eq (c : SafetyConfig) :
    checkCircuitBreaker c =
      if c.circuitBreaker.consecutiveFailures ≥ c.circuitBreaker.maxFailures then
        ({ c with circuitBreaker := { c.circuitBreaker with isActive := true } },
         some "EMERGENCY STOP: Too many consecutive failures")
      else if c.circuitBreaker.isActive = true then
        ({ c with circuitBreaker := { c.circuitBreaker with isActive := true } },
         some "EMERGENCY STOP: Circuit breaker manually activated")
      else (c, none) := rfl

/-- Unfolded form of `monitoredTransaction` on a successful operation. -/
theorem monitoredTransaction_ok_eq {ε α : Type} (r : α) (c : SafetyConfig) :
    monitoredTransaction (Except.ok r : Except ε α) c =
      if c.testMode.enabled = true then
        ({ c with circuitBreaker := { c.circuitBreaker with consecutiveFailures := 0 },
                  testMode := { c.testMode with completedTrades := c.testMode.completedTrades + 1 } },
         Except.ok r)
      else
        ({ c with circuitBreaker := { c.circuitBreaker with consecutiveFailures := 0 } },
         Except.ok r) := by
  simp only [monitoredTransaction]
  split <;> rfl

/-- Unfolded form of `monitoredTransaction` on a failing operation. -/
theorem monitoredTransaction_error_eq {ε α : Type} (e : ε) (c : SafetyConfig) :
    monitoredTransaction (Except.error e : Except ε α) c =
      if c.circuitBreaker.consecutiveFailures + 1 ≥ c.circuitBreaker.maxFailures then
        ({ c with circuitBreaker := { c.circuitBreaker with
            consecutiveFailures := c.circuitBreaker.consecutiveFailures + 1, isActive := true } },
         Except.error (TxOutcomeError.emergencyStop "EMERGENCY STOP: Too many consecutive failures"))
      else if c.circuitBreaker.isActive = true then
        ({ c with circuitBreaker := { c.circuitBreaker with
            consecutiveFailures := c.circuitBreaker.consecutiveFailures + 1, isActive := true } },
         Except.error (TxOutcomeError.emergencyStop "EMERGENCY STOP: Circuit breaker manually activated"))
      else
        ({ c with circuitBreaker := { c.circuitBreaker with
            consecutiveFailures := c.circuitBreaker.consecutiveFailures + 1 } },
         Except.error (TxOutcomeError.original e)) := by
  simp only [monitoredTransaction, checkCircuitBreaker_eq]
  by_cases h1 : c.circuitBreaker.consecutiveFailures + 1 ≥ c.circuitBreaker.maxFailures
  · simp only [if_pos h1]
  · simp only [if_neg h1]
    by_cases h2 : c.circuitBreaker.isActive = true
    · simp only [if_pos h2]
    · simp only [if_neg h2]

/-- C1: the claim asserts that with the breaker tripped, `monitoredTransaction`
fails with a circuit-open error and the operation is never run.  In the code
there is no circuit-breaker check before the operation is awaited: starting
from the armed configuration, a succeeding operation runs, its result is
returned (no error at all), and the success bookkeeping (test-trade counter)
executes. -/
theorem C1_counterexample :
    trippedConfig.circuitBreaker.isActive = true ∧
    (monitoredTransaction (Except.ok (42 : Nat) : Except String Nat) trippedConfig).2
      = Except.ok 42 ∧
    (monitoredTransaction (Except.ok (42 : Nat) : Except String Nat)
        trippedConfig).1.testMode.completedTrades
      = trippedConfig.testMode.completedTrades + 1 :=
  ⟨rfl, rfl, rfl⟩

/-- C1 (amended): `monitoredTransaction` never blocks the operation up front.
With the breaker armed, a succeeding operation still returns its result
normally; only a failing operation surfaces an emergency-stop error, and it
does so after the operation has already run. -/
theorem C1_amended (c : SafetyConfig) (r : Nat) (e : String)
    (h : c.circuitBreaker.isActive = true) :
    (monitoredTransaction (Except.ok r : Except String Nat) c).2 = Except.ok r ∧
    ∃ msg, (monitoredTransaction (Except.error e : Except String Nat) c).2
      = Except.error (TxOutcomeError.emergencyStop msg) := by
  constructor
  · rw [monitoredTransaction_ok_eq]
    split <;> rfl
  · rw [monitoredTransaction_error_eq]
    by_cases h1 : c.circuitBreaker.consecutiveFailures + 1 ≥ c.circuitBreaker.maxFailures
    · rw [if_pos h1]
      exact ⟨_, rfl⟩
    · rw [if_neg h1, if_pos h]
      exact ⟨_, rfl⟩

/-- C1 (amended) at a concrete input: the armed initial configuration. -/
theorem C1_amended_witness :
    trippedConfig.circuitBreaker.isActive = true ∧
    ((monitoredTransaction (Except.ok 42 : Except String Nat) trippedConfig).2 = Except.ok 42 ∧
     ∃ msg, (monitoredTransaction (Except.error "boom" : Except String Nat) trippedConfig).2
       = Except.error (TxOutcomeError.emergencyStop msg)) :=
  ⟨rfl, C1_amended trippedConfig 42 "boom" rfl⟩

/-- `SAFETY_CONFIG` after two consecutive failures have been recorded. -/
def twoFailConfig : SafetyConfig :=
  { SAFETY_CONFIG with circuitBreaker := { SAFETY_CONFIG.circuitBreaker with consecutiveFailures := 2 } }

/-- C2: the claim asserts the wrapper always re-raises the original failure.
At two prior consecutive failures (threshold 3), a third failing operation has
its error replaced: the caller receives the emergency-stop error, not the
operation's own error. -/
theorem C2_counterexample :
    twoFailConfig.circuitBreaker.isActive = false ∧
    (monitoredTransaction (Except.error "boom" : Except String Nat) twoFailConfig).2
      = Except.error (TxOutcomeError.emergencyStop "EMERGENCY STOP: Too many consecutive failures") ∧
    (monitoredTransaction (Except.error "boom" : Except String Nat) twoFailConfig).2
      ≠ Except.error (TxOutcomeError.original "boom") :=
  ⟨rfl, rfl, by
    rw [show (monitoredTransaction (Except.error "boom" : Except String Nat) twoFailConfig).2
        = Except.error (TxOutcomeError.emergencyStop
            "EMERGENCY STOP: Too many consecutive failures") from rfl]
    simp⟩

/-- C2 (amended): on a failing operation the wrapper increments
`consecutiveFailures` and re-raises the original error only when the
post-increment count stays below the threshold and the breaker is not armed;
when the threshold is reached, or the breaker was already armed, the original
error is replaced by the emergency-stop error. -/
theorem C2_amended (c : SafetyConfig) (e : String) :
    (monitoredTransaction (Except.error e : Except String Nat) c).1.circuitBreaker.consecutiveFailures
      = c.circuitBreaker.consecutiveFailures + 1 ∧
    (monitoredTransaction (Except.error e : Except String Nat) c).2
      = (if c.circuitBreaker.consecutiveFailures + 1 ≥ c.circuitBreaker.maxFailures then
          Except.error (TxOutcomeError.emergencyStop "EMERGENCY STOP: Too many consecutive failures")
         else if c.circuitBreaker.isActive = true then
          Except.error (TxOutcomeError.emergencyStop "EMERGENCY STOP: Circuit breaker manually activated")
         else Except.error (TxOutcomeError.original e)) := by
  by_cases h1 : c.circuitBreaker.consecutiveFailures + 1 ≥ c.circuitBreaker.maxFailures
  · simp only [monitoredTransaction_error_eq, if_pos h1]
    exact ⟨trivial, trivial⟩
  · by_cases h2 : c.circuitBreaker.isActive = true
    · simp only [monitoredTransaction_error_eq, if_neg h1, if_pos h2]
      exact ⟨trivial, trivial⟩
    · simp only [monitoredTransaction_error_eq, if_neg h1, if_neg h2]
      exact ⟨trivial, trivial⟩

/-- `SAFETY_CONFIG` with the test-trade limit already reached
(`completedTrades = maxTestTrades = 5`). -/
def testLimitConfig : SafetyConfig :=
  { SAFETY_CONFIG with testMode := { SAFETY_CONFIG.testMode with completedTrades := 5 } }

/-- An intent whose amount exceeds the test-mode ceiling of 500. -/
def txOversized : TxData := { gasPrice := none, amount := some 1000, counterparty := none }

/-- An intent with no fields provided. -/
def txEmpty : TxData := { gasPrice := none, amount := none, counterparty := none }

/-- C3: the claim asserts that once the test-trade limit is reached,
validation rejects with the test-limit reason regardless of the amount.  The
trade-size check runs first: with the limit reached and an amount of 1000
(ceiling 500), the rejection raised is the trade-size one, not the test-limit
one. -/
theorem C3_counterexample :
    testLimitConfig.testMode.enabled = true ∧
    testLimitConfig.testMode.completedTrades ≥ testLimitConfig.testMode.maxTestTrades ∧
    (validateTransaction txOversized testLimitConfig).2
      = some "EMERGENCY STOP: Trade size too large: $1000 > $500" ∧
    (validateTransaction txOversized testLimitConfig).2
      ≠ some "EMERGENCY STOP: Test mode limit reached - manual review required" := by
  exact ⟨rfl, by decide, rfl, by decide⟩

/-- C3 (amended): with test mode enabled and the trade limit reached, every
`validateTransaction` call rejects, but the reason is the test-limit one only
when neither the gas-price check nor the trade-size check fires first; an
amount above the ceiling is rejected as a trade-size violation instead. -/
theorem C3_amended (tx : TxData) (c : SafetyConfig)
    (hen : c.testMode.enabled = true)
    (hlim : c.testMode.completedTrades ≥ c.testMode.maxTestTrades) :
    ((validateTransaction tx c).2).isSome = true ∧
    (¬(jsTruthy tx.gasPrice = true ∧ jsNum tx.gasPrice > c.maxGasPrice) →
      ¬(jsTruthy tx.amount = true ∧ jsNum tx.amount > c.testMode.maxTestAmount) →
      (validateTransaction tx c).2
        = some "EMERGENCY STOP: Test mode limit reached - manual review required") := by
  simp only [validateTransaction, hen, if_true]
  by_cases h1 : jsTruthy tx.gasPrice = true ∧ jsNum tx.gasPrice > c.maxGasPrice
  · rw [if_pos h1]
    exact ⟨rfl, fun hg _ => absurd h1 hg⟩
  · rw [if_neg h1]
    by_cases h2 : jsTruthy tx.amount = true ∧ jsNum tx.amount > c.testMode.maxTestAmount
    · rw [if_pos h2]
      exact ⟨rfl, fun _ ha => absurd h2 ha⟩
    · rw [if_neg h2, if_pos
        ((And.intro trivial hlim :
          True ∧ c.testMode.completedTrades ≥ c.testMode.maxTestTrades))]
      exact ⟨rfl, fun _ _ => rfl⟩

/-- C3 (amended) at a concrete input: the empty intent at the reached limit. -/
theorem C3_amended_witness :
    testLimitConfig.testMode.enabled = true ∧
    testLimitConfig.testMode.completedTrades ≥ testLimitConfig.testMode.maxTestTrades ∧
    (((validateTransaction txEmpty testLimitConfig).2).isSome = true ∧
     (¬(jsTruthy txEmpty.gasPrice = true ∧ jsNum txEmpty.gasPrice > testLimitConfig.maxGasPrice) →
      ¬(jsTruthy txEmpty.amount = true ∧
          jsNum txEmpty.amount > testLimitConfig.testMode.maxTestAmount) →
      (validateTransaction txEmpty testLimitConfig).2
        = some "EMERGENCY STOP: Test mode limit reached - manual review required")) :=
  ⟨rfl, by decide, C3_amended txEmpty testLimitConfig rfl (by decide)⟩

/-- C4: every rejection of `validateTransaction`, and of the counterparty
check `validateFlashloanProvider`, goes through `emergencyStop`, so the
post-state of any rejecting call has the breaker flag set; no rejection path
leaves it unset. -/
theorem C4_rejection_trips_breaker (tx : TxData) (addr : String) (c : SafetyConfig) :
    ((validateTransaction tx c).2.isSome = true →
      (validateTransaction tx c).1.circuitBreaker.isActive = true) ∧
    ((validateFlashloanProvider addr c).2.isSome = true →
      (validateFlashloanProvider addr c).1.circuitBreaker.isActive = true) := by
  constructor
  · intro h
    simp only [validateTransaction] at h ⊢
    split_ifs at h ⊢ <;> first | rfl | simp_all
  · intro h
    simp only [validateFlashloanProvider] at h ⊢
    split_ifs at h ⊢ <;> first | rfl | simp_all

/-- C4 at concrete rejecting inputs: an oversized trade and an unauthorized
provider address. -/
theorem C4_rejection_trips_breaker_witness :
    (validateTransaction txOversized SAFETY_CONFIG).1.circuitBreaker.isActive = true ∧
    (validateFlashloanProvider "0xBAD" SAFETY_CONFIG).1.circuitBreaker.isActive = true :=
  ⟨(C4_rejection_trips_breaker txOversized "0xBAD" SAFETY_CONFIG).1 (by decide),
   (C4_rejection_trips_breaker txOversized "0xBAD" SAFETY_CONFIG).2 (by decide)⟩

/-- An intent whose counterparty is not in the authorized list. -/
def txBadCounterparty : TxData := { gasPrice := none, amount := none, counterparty := some "0xBAD" }

/-- C5: the claim asserts that `validate` rejects any intent carrying an
unauthorized counterparty.  `validateTransaction` never reads the
counterparty field: an intent whose counterparty is not in the list (and
whose other fields violate nothing, limit not reached) is accepted and the
state is untouched. -/
theorem C5_counterexample :
    SAFETY_CONFIG.authorizedFlashloanProviders.contains "0xBAD" = false ∧
    txBadCounterparty.counterparty = some "0xBAD" ∧
    (validateTransaction txBadCounterparty SAFETY_CONFIG).2 = none ∧
    (validateTransaction txBadCounterparty SAFETY_CONFIG).1 = SAFETY_CONFIG :=
  ⟨by decide, rfl, rfl, rfl⟩

/-- C5 (amended): the counterparty check lives in the separate entry point
`validateFlashloanProvider`: every address not in the authorized list (exact,
case-sensitive membership) is rejected with the unauthorized-provider
emergency stop, and the breaker is tripped. -/
theorem C5_amended (addr : String) (c : SafetyConfig)
    (h : c.authorizedFlashloanProviders.contains addr = false) :
    (validateFlashloanProvider addr c).2
      = some ("EMERGENCY STOP: Unauthorized flashloan provider: " ++ addr) ∧
    (validateFlashloanProvider addr c).1.circuitBreaker.isActive = true := by
  simp only [validateFlashloanProvider]
  rw [if_pos h]
  exact ⟨rfl, rfl⟩

/-- C5 (amended) at a concrete input: the address 0xBAD. -/
theorem C5_amended_witness :
    SAFETY_CONFIG.authorizedFlashloanProviders.contains "0xBAD" = false ∧
    ((validateFlashloanProvider "0xBAD" SAFETY_CONFIG).2
        = some ("EMERGENCY STOP: Unauthorized flashloan provider: " ++ "0xBAD") ∧
     (validateFlashloanProvider "0xBAD" SAFETY_CONFIG).1.circuitBreaker.isActive = true) :=
  ⟨by decide, C5_amended "0xBAD" SAFETY_CONFIG (by decide)⟩

/-- C6: the claim asserts the snapshot is a copy, unaffected by later
mutations.  The returned object's `circuitBreaker` field aliases the live
state: reading the same snapshot before and after a later arm call yields
different values. -/
theorem C6_counterexample :
    (readSnapshot (getSafetyStatus SAFETY_CONFIG) SAFETY_CONFIG).circuitBreaker.isActive
      = false ∧
    (readSnapshot (getSafetyStatus SAFETY_CONFIG)
        (activateCircuitBreaker SAFETY_CONFIG)).circuitBreaker.isActive = true :=
  ⟨rfl, rfl⟩

/-- C6 (amended): only the `limits` sub-object of the snapshot is a copy
fixed at call time; the `circuitBreaker` and `testMode` fields are live
references, so administrative mutations performed after the call are
observable through the previously returned snapshot. -/
theorem C6_amended (c : SafetyConfig) :
    (readSnapshot (getSafetyStatus c) (activateCircuitBreaker c)).circuitBreaker.isActive
      = true ∧
    (readSnapshot (getSafetyStatus c) (activateCircuitBreaker c)).limits
      = (getSafetyStatus c).limits ∧
    (readSnapshot (getSafetyStatus c) (deactivateCircuitBreaker c)).circuitBreaker.consecutiveFailures
      = 0 ∧
    (readSnapshot (getSafetyStatus c) (disableTestMode c)).testMode.enabled = false ∧
    (readSnapshot (getSafetyStatus c) (disableTestMode c)).limits
      = (getSafetyStatus c).limits :=
  ⟨rfl, rfl, rfl, rfl, rfl⟩

/-- A failing guarded execution strictly below the threshold, with the
breaker not armed, re-raises the original error and only increments the
counter. -/
theorem monitoredTransaction_error_below (e : String) (c : SafetyConfig)
    (hlt : c.circuitBreaker.consecutiveFailures + 1 < c.circuitBreaker.maxFailures)
    (hact : c.circuitBreaker.isActive = false) :
    monitoredTransaction (Except.error e : Except String Nat) c =
      ({ c with circuitBreaker := { c.circuitBreaker with
          consecutiveFailures := c.circuitBreaker.consecutiveFailures + 1 } },
       Except.error (TxOutcomeError.original e)) := by
  rw [monitoredTransaction_error_eq, if_neg (by omega), if_neg (by simp [hact])]

/-- A failing guarded execution that reaches the threshold arms the breaker
and replaces the error with the emergency stop. -/
theorem monitoredTransaction_error_at_threshold (e : String) (c : SafetyConfig)
    (hge : c.circuitBreaker.consecutiveFailures + 1 ≥ c.circuitBreaker.maxFailures) :
    monitoredTransaction (Except.error e : Except String Nat) c =
      ({ c with circuitBreaker := { c.circuitBreaker with
          consecutiveFailures := c.circuitBreaker.consecutiveFailures + 1, isActive := true } },
       Except.error (TxOutcomeError.emergencyStop
         "EMERGENCY STOP: Too many consecutive failures")) := by
  rw [monitoredTransaction_error_eq, if_pos hge]

/-- C7: with threshold 3, counter 0 and the breaker ready, two consecutive
failing guarded executions re-raise their original errors and leave the
breaker ready with the counter at 2; the third failure arms the breaker and
raises the emergency stop. -/
theorem C7_threshold (c : SafetyConfig) (e1 e2 e3 : String)
    (h0 : c.circuitBreaker.consecutiveFailures = 0)
    (hmax : c.circuitBreaker.maxFailures = 3)
    (hact : c.circuitBreaker.isActive = false) :
    (monitoredTransaction (Except.error e1 : Except String Nat) c).2
      = Except.error (TxOutcomeError.original e1) ∧
    (monitoredTransaction (Except.error e2 : Except String Nat)
        (monitoredTransaction (Except.error e1 : Except String Nat) c).1).2
      = Except.error (TxOutcomeError.original e2) ∧
    (monitoredTransaction (Except.error e2 : Except String Nat)
        (monitoredTransaction (Except.error e1 : Except String Nat) c).1).1.circuitBreaker.isActive
      = false ∧
    (monitoredTransaction (Except.error e2 : Except String Nat)
        (monitoredTransaction (Except.error e1 : Except String Nat) c).1).1.circuitBreaker.consecutiveFailures
      = 2 ∧
    (monitoredTransaction (Except.error e3 : Except String Nat)
        (monitoredTransaction (Except.error e2 : Except String Nat)
          (monitoredTransaction (Except.error e1 : Except String Nat) c).1).1).1.circuitBreaker.isActive
      = true ∧
    (monitoredTransaction (Except.error e3 : Except String Nat)
        (monitoredTransaction (Except.error e2 : Except String Nat)
          (monitoredTransaction (Except.error e1 : Except String Nat) c).1).1).2
      = Except.error (TxOutcomeError.emergencyStop
          "EMERGENCY STOP: Too many consecutive failures") := by
  simp [monitoredTransaction_error_eq, h0, hmax, hact]

/-- C7 at the concrete initial configuration. -/
theorem C7_threshold_witness :
    SAFETY_CONFIG.circuitBreaker.consecutiveFailures = 0 ∧
    SAFETY_CONFIG.circuitBreaker.maxFailures = 3 ∧
    SAFETY_CONFIG.circuitBreaker.isActive = false ∧
    ((monitoredTransaction (Except.error "f1" : Except String Nat) SAFETY_CONFIG).2
      = Except.error (TxOutcomeError.original "f1") ∧
    (monitoredTransaction (Except.error "f2" : Except String Nat)
        (monitoredTransaction (Except.error "f1" : Except String Nat) SAFETY_CONFIG).1).2
      = Except.error (TxOutcomeError.original "f2") ∧
    (monitoredTransaction (Except.error "f2" : Except String Nat)
        (monitoredTransaction (Except.error "f1" : Except String Nat) SAFETY_CONFIG).1).1.circuitBreaker.isActive
      = false ∧
    (monitoredTransaction (Except.error "f2" : Except String Nat)
        (monitoredTransaction (Except.error "f1" : Except String Nat) SAFETY_CONFIG).1).1.circuitBreaker.consecutiveFailures
      = 2 ∧
    (monitoredTransaction (Except.error "f3" : Except String Nat)
        (monitoredTransaction (Except.error "f2" : Except String Nat)
          (monitoredTransaction (Except.error "f1" : Except String Nat) SAFETY_CONFIG).1).1).1.circuitBreaker.isActive
      = true ∧
    (monitoredTransaction (Except.error "f3" : Except String Nat)
        (monitoredTransaction (Except.error "f2" : Except String Nat)
          (monitoredTransaction (Except.error "f1" : Except String Nat) SAFETY_CONFIG).1).1).2
      = Except.error (TxOutcomeError.emergencyStop
          "EMERGENCY STOP: Too many consecutive failures")) :=
  ⟨rfl, rfl, rfl, C7_threshold SAFETY_CONFIG "f1" "f2" "f3" rfl rfl rfl⟩

/-- C8: the administrative disarm is one state transition that establishes
`isActive = false` and `consecutiveFailures = 0` together (there is no
observable state with only one of them changed), and a guarded execution run
on the disarmed state with a succeeding operation returns its result
normally. -/
theorem C8_disarm (c : SafetyConfig) (r : Nat) :
    (deactivateCircuitBreaker c).circuitBreaker.isActive = false ∧
    (deactivateCircuitBreaker c).circuitBreaker.consecutiveFailures = 0 ∧
    (deactivateCircuitBreaker c).testMode = c.testMode ∧
    (monitoredTransaction (Except.ok r : Except String Nat) (deactivateCircuitBreaker c)).2
      = Except.ok r := by
  refine ⟨rfl, rfl, rfl, ?_⟩
  rw [monitoredTransaction_ok_eq]
  split <;> rfl

/-- C9: across every exported operation, the consecutive-failure counter
changes only by the increment of a failing guarded execution, and the resets
of a successful guarded execution and of the explicit disarm; every other
operation leaves it unchanged. -/
theorem C9_counter_changes (op : CoreOp String Nat) (c : SafetyConfig) :
    (applyCoreOp op c).circuitBreaker.consecutiveFailures =
      match op with
      | CoreOp.monitoredTransactionOp (Except.ok _) => 0
      | CoreOp.monitoredTransactionOp (Except.error _) =>
          c.circuitBreaker.consecutiveFailures + 1
      | CoreOp.deactivateCircuitBreakerOp => 0
      | _ => c.circuitBreaker.consecutiveFailures := by
  cases op with
  | emergencyStopOp r => rfl
  | checkCircuitBreakerOp =>
      show (checkCircuitBreaker c).1.circuitBreaker.consecutiveFailures
        = c.circuitBreaker.consecutiveFailures
      rw [checkCircuitBreaker_eq]
      split_ifs <;> rfl
  | validateFlashloanProviderOp a =>
      show (validateFlashloanProvider a c).1.circuitBreaker.consecutiveFailures
        = c.circuitBreaker.consecutiveFailures
      simp only [validateFlashloanProvider]
      split_ifs <;> rfl
  | validateTransactionOp tx =>
      show (validateTransaction tx c).1.circuitBreaker.consecutiveFailures
        = c.circuitBreaker.consecutiveFailures
      simp only [validateTransaction]
      split_ifs <;> rfl
  | monitoredTransactionOp o =>
      cases o with
      | ok r =>
          show (monitoredTransaction (Except.ok r) c).1.circuitBreaker.consecutiveFailures = 0
          rw [monitoredTransaction_ok_eq]
          split <;> rfl
      | error e =>
          show (monitoredTransaction (Except.error e) c).1.circuitBreaker.consecutiveFailures
            = c.circuitBreaker.consecutiveFailures + 1
          rw [monitoredTransaction_error_eq]
          split_ifs <;> rfl
  | getSafetyStatusOp => rfl
  | activateCircuitBreakerOp => rfl
  | deactivateCircuitBreakerOp => rfl
  | disableTestModeOp => rfl

/-- C10: a rejecting `validateTransaction` call changes exactly the breaker
flag: the post-state is the pre-state with `isActive := true`, so the
failure counter, the completed-trade counter, the limits and the authorized
list are untouched. -/
theorem C10_rejection_frame (tx : TxData) (c : SafetyConfig)
    (h : (validateTransaction tx c).2.isSome = true) :
    (validateTransaction tx c).1
      = { c with circuitBreaker := { c.circuitBreaker with isActive := true } } := by
  simp only [validateTransaction] at h ⊢
  split_ifs at h ⊢ <;> first | rfl | simp_all

/-- C10 at a concrete rejecting input. -/
theorem C10_rejection_frame_witness :
    ((validateTransaction txOversized SAFETY_CONFIG).2).isSome = true ∧
    (validateTransaction txOversized SAFETY_CONFIG).1
      = { SAFETY_CONFIG with circuitBreaker :=
          { SAFETY_CONFIG.circuitBreaker with isActive := true } } :=
  ⟨by decide, C10_rejection_frame txOversized SAFETY_CONFIG (by decide)⟩
